import Mathlib

/-!
Formal model of the result-generation and validation logic of the
frappe-education-extension repository, covering
`education_extension/api.py` (`generate_class_results`,
`populate_student_result`) and
`overrides/assessment_criteria.py` (`validate_assessment_criteria`).

Database tables are modelled as lists of typed rows; the SQL queries of
the source are translated into list computations; nullable columns are
`Option` values; Python `x or d` truthiness is `pyOrQ`/`pyOrS`; Python
`round(x, 2)` (round-half-to-even) is `round2`.  Fields of the source
documents that no theorem mentions (gender, term dates, the two
class-size counters, and the program-wide position) are omitted from the
model; everything else follows the source line by line.
-/

namespace EducationExtension

/-- Row of the `Student` table (only the primary key is relevant: the class
ranking queries inner-join on it). -/
structure StudentRow where
  name : String
deriving DecidableEq

/-- Row of the `Student Group Student` child table: membership of `student`
in the student group `parent`. -/
structure StudentGroupStudentRow where
  parent : String
  student : String
deriving DecidableEq

/-- Row of the `Assessment Result` table.  `total_score` and `grade` are
nullable columns. -/
structure AssessmentResultRow where
  name : String
  student : String
  course : String
  total_score : Option ℚ
  grade : Option String
  academic_year : String
  academic_term : String
  assessment_group : String
  docstatus : Nat
deriving DecidableEq

/-- Row of the `Assessment Result Detail` child table, attached to the
assessment result `parent`. -/
structure AssessmentResultDetailRow where
  parent : String
  assessment_criteria : String
  score : Option ℚ
  maximum_score : Option ℚ
  idx : Nat
deriving DecidableEq

/-- One band of the overall grading scale configured in School Settings. -/
structure GradingBand where
  min_percentage : Option ℚ
  max_percentage : Option ℚ
  grade_code : String
deriving DecidableEq

/-- One whitelist entry of the assessment-criteria list in School Settings. -/
structure CriteriaItem where
  criteria_name : String
deriving DecidableEq

/-- The School Settings single document. -/
structure SchoolSettings where
  overall_grading_scale : List GradingBand
  assessment_criteria_item : List CriteriaItem
deriving DecidableEq

/-- The database visible to the two api functions.  `schoolSettings = none`
models the case where fetching School Settings raises (the source catches
any exception there). -/
structure DB where
  students : List StudentRow
  studentGroupStudents : List StudentGroupStudentRow
  assessmentResults : List AssessmentResultRow
  assessmentResultDetails : List AssessmentResultDetailRow
  schoolSettings : Option SchoolSettings
deriving DecidableEq

/-- Python `x or d` for a nullable number: `None` and `0` are falsy. -/
def pyOrQ (o : Option ℚ) (d : ℚ) : ℚ :=
  match o with
  | none => d
  | some x => if x = 0 then d else x

/-- Python `x or d` for a nullable string: `None` and `""` are falsy. -/
def pyOrS (o : Option String) (d : String) : String :=
  match o with
  | none => d
  | some s => if s = "" then d else s

/-- Python truthiness of a nullable string field (used on
`doc.student_group` and the generator filters). -/
def pyTruthyStr (o : Option String) : Bool :=
  match o with
  | none => false
  | some s => !(s == "")

/-- Python `round` to an integer: round half to even (banker's rounding). -/
def pyRoundInt (q : ℚ) : ℤ :=
  let f := q.floor
  let r := q - (f : ℚ)
  if r < 1/2 then f
  else if 1/2 < r then f + 1
  else if f % 2 = 0 then f else f + 1

/-- Python `round(q, 2)`. -/
def round2 (q : ℚ) : ℚ :=
  (pyRoundInt (q * 100) : ℚ) / 100

/-- One row of the joined `detailed_results` query in
`populate_student_result` (assessment result joined with its detail rows). -/
structure DRow where
  course : String
  total_score : Option ℚ
  grade : Option String
  assessment_criteria : String
  score : Option ℚ
  maximum_score : Option ℚ
  idx : Nat
deriving DecidableEq

/-- SQL `ORDER BY ar.course, ard.idx` comparison on joined rows. -/
def rowLE (a b : DRow) : Bool :=
  decide (a.course < b.course) || (a.course == b.course && decide (a.idx ≤ b.idx))

/-- Insert a row into an already sorted list (insertion sort step). -/
def insertRow (a : DRow) : List DRow → List DRow
  | [] => [a]
  | b :: bs => if rowLE a b then a :: b :: bs else b :: insertRow a bs

/-- Sorting of the joined rows, modelling the query's ORDER BY clause. -/
def sortRows : List DRow → List DRow
  | [] => []
  | a :: as => insertRow a (sortRows as)

/-- The `detailed_results` query: assessment results of the student for the
given year/term/assessment group with docstatus in (0, 1), inner-joined
with their detail rows, ordered by course and detail index. -/
def detailedResults (db : DB) (student year term ag : String) : List DRow :=
  sortRows (db.assessmentResults.flatMap (fun ar =>
    if ar.student = student ∧ ar.academic_year = year ∧ ar.academic_term = term
        ∧ ar.assessment_group = ag ∧ (ar.docstatus = 0 ∨ ar.docstatus = 1) then
      (db.assessmentResultDetails.filter (fun d => d.parent = ar.name)).map (fun d =>
        { course := ar.course, total_score := ar.total_score, grade := ar.grade,
          assessment_criteria := d.assessment_criteria, score := d.score,
          maximum_score := d.maximum_score, idx := d.idx })
    else []))

/-- Subject entry of the result document (`subjects` child table). -/
structure SubjectRow where
  subject : String
  total_score : ℚ
  grade : String
  subject_position : String
  class_highest_score : ℚ
  class_lowest_score : ℚ
  class_average_score : ℚ
deriving DecidableEq

/-- Assessment-component entry of the result document
(`assessment_components` child table). -/
structure ComponentRow where
  criteria : String
  score_obtained : ℚ
  max_score : ℚ
  subject : String
deriving DecidableEq

/-- Keys of a Python dict in insertion order: first occurrence of each
course in row order (the `course_details` dict of the source). -/
def uniqueKeys (l : List String) : List String :=
  l.foldl (fun acc s => if s ∈ acc then acc else acc ++ [s]) []

/-- Build the `subjects` table: one entry per course in first-seen order,
taking `total_score`/`grade` from the first joined row of that course. -/
def buildSubjects (rows : List DRow) : List SubjectRow :=
  (uniqueKeys (rows.map (fun r => r.course))).map (fun c =>
    match rows.find? (fun r => r.course = c) with
    | some r =>
      { subject := c, total_score := pyOrQ r.total_score 0, grade := pyOrS r.grade "",
        subject_position := "", class_highest_score := 0, class_lowest_score := 0,
        class_average_score := 0 }
    | none =>
      { subject := c, total_score := 0, grade := "", subject_position := "",
        class_highest_score := 0, class_lowest_score := 0, class_average_score := 0 })

/-- Build the `assessment_components` table: one entry per joined row. -/
def buildComponents (rows : List DRow) : List ComponentRow :=
  rows.map (fun r =>
    { criteria := r.assessment_criteria, score_obtained := pyOrQ r.score 0,
      max_score := pyOrQ r.maximum_score 0, subject := r.course })

/-- The `class_scores` query: non-null total scores of all assessment
results for the course within the student group (inner joins on the
Student and Student Group Student tables), with docstatus in (0, 1). -/
def classScores (db : DB) (group course ag term year : String) : List ℚ :=
  db.assessmentResults.flatMap (fun ar =>
    if ar.course = course ∧ ar.assessment_group = ag ∧ ar.academic_term = term
        ∧ ar.academic_year = year ∧ (ar.docstatus = 0 ∨ ar.docstatus = 1)
        ∧ ar.total_score.isSome then
      (db.students.filter (fun s => s.name = ar.student)).flatMap (fun s =>
        (db.studentGroupStudents.filter
            (fun g => g.student = s.name ∧ g.parent = group)).map
          (fun _ => ar.total_score.getD 0))
    else [])

/-- Python `max` of a nonempty list (0 for the empty list, never used). -/
def listMax : List ℚ → ℚ
  | [] => 0
  | h :: t => t.foldl max h

/-- Python `min` of a nonempty list (0 for the empty list, never used). -/
def listMin : List ℚ → ℚ
  | [] => 0
  | h :: t => t.foldl min h

/-- The position loop of the source: 1 plus the number of scores strictly
exceeding the student's own score. -/
def subjectRank (scores : List ℚ) (own : ℚ) : Nat :=
  1 + (scores.filter (fun v => own < v)).length

/-- Step 7 of `populate_student_result`: fill class high/low/average and
the subject position of one subject row, guarded by the truthiness of
`doc.student_group` and the subject name and by a nonempty score list. -/
def updateSubjectStats (db : DB) (group : Option String) (ag term year : String)
    (s : SubjectRow) : SubjectRow :=
  if pyTruthyStr group && !(s.subject == "") then
    let scores := classScores db (group.getD "") s.subject ag term year
    if scores = [] then s
    else
      { s with
        class_highest_score := listMax scores,
        class_lowest_score := listMin scores,
        class_average_score := round2 (scores.sum / (scores.length : ℚ)),
        subject_position := toString (subjectRank scores s.total_score) }
  else s

/-- Match test of one grading band against the term average, with the
source's `or` defaults (min 0, max 100). -/
def bandMatches (b : GradingBand) (avg : ℚ) : Bool :=
  decide (pyOrQ b.min_percentage 0 ≤ avg ∧ avg ≤ pyOrQ b.max_percentage 100)

/-- Scan of the configured grading bands in order: grade code of the first
matching band, with the sentinel when none matches. -/
def gradeFromBands (bands : List GradingBand) (avg : ℚ) : String :=
  match bands.find? (fun b => bandMatches b avg) with
  | some b => b.grade_code
  | none => "N/A"

/-- The hardcoded fallback thresholds of step 9. -/
def fallbackGrade (avg : ℚ) : String :=
  if 80 ≤ avg then "A"
  else if 70 ≤ avg then "B"
  else if 60 ≤ avg then "C"
  else if 50 ≤ avg then "D"
  else "F"

/-- Step 9 of `populate_student_result`: the overall grade is computed only
when `doc.term_average` is truthy (set and non-zero); a failure to load
School Settings is caught and yields the sentinel. -/
def overallGrade (settings : Option SchoolSettings) (term_average : Option ℚ) :
    Option String :=
  match term_average with
  | none => none
  | some avg =>
    if avg = 0 then none
    else
      match settings with
      | none => some "N/A"
      | some st =>
        if st.overall_grading_scale = [] then some (fallbackGrade avg)
        else some (gradeFromBands st.overall_grading_scale avg)

/-- SQL `SUM` over a nullable column: nulls are skipped, and the sum of an
all-null (or empty) collection is null. -/
def sqlSum (vals : List (Option ℚ)) : Option ℚ :=
  let xs := vals.filterMap id
  if xs = [] then none else some xs.sum

/-- The join of the `class_arm_totals` query before grouping: one
`(student, total_score)` pair per joined assessment result row of the
group for the term. -/
def armJoinRows (db : DB) (group ag term year : String) : List (String × Option ℚ) :=
  db.assessmentResults.flatMap (fun ar =>
    if ar.assessment_group = ag ∧ ar.academic_term = term ∧ ar.academic_year = year
        ∧ (ar.docstatus = 0 ∨ ar.docstatus = 1) then
      (db.students.filter (fun s => s.name = ar.student)).flatMap (fun s =>
        (db.studentGroupStudents.filter
            (fun g => g.student = s.name ∧ g.parent = group)).map
          (fun _ => (ar.student, ar.total_score)))
    else [])

/-- The `class_arm_totals` query: GROUP BY student with SUM of the nullable
total scores.  The ORDER BY clause of the source is dropped: the position
computed from the result is a pure count and independent of row order. -/
def armTotals (db : DB) (group ag term year : String) : List (String × Option ℚ) :=
  (uniqueKeys ((armJoinRows db group ag term year).map (fun t => t.1))).map
    (fun st =>
      (st, sqlSum (((armJoinRows db group ag term year).filter
        (fun t => t.1 = st)).map (fun t => t.2))))

/-- The School Term Result document as populated by
`populate_student_result` (fields not touched by any modelled step are
omitted).  `msgs` collects the `frappe.msgprint` notices. -/
structure ResultDoc where
  student : String
  assessment_group : String
  academic_year : String
  academic_term : String
  student_group : Option String
  subjects : List SubjectRow
  assessment_components : List ComponentRow
  total_marks_obtained : Option ℚ
  total_max_marks : Option ℚ
  term_average : Option ℚ
  overall_grade : Option String
  class_arm_position : Option Nat
  msgs : List String
deriving DecidableEq

/-- The stub handed to `populate_student_result`: student plus the four
academic identifiers. -/
structure Stub where
  student : String
  assessment_group : String
  academic_year : String
  academic_term : String
deriving DecidableEq

/-- Outcome of a call to `populate_student_result`: the mutated document
together with an optional uncaught exception.  The document keeps the
fields written before the exception, as Python in-place mutation does. -/
structure PopOutcome where
  doc : ResultDoc
  error : Option String
deriving DecidableEq

/-- Step 4 of `populate_student_result`: the parent of the first
`Student Group Student` row of the student, if any. -/
def resolveGroup (db : DB) (student : String) : Option String :=
  ((db.studentGroupStudents.filter (fun r => r.student = student)).map
    (fun r => r.parent)).head?

/-- The `detailed_results` rows for a stub. -/
def stubRows (db : DB) (stub : Stub) : List DRow :=
  detailedResults db stub.student stub.academic_year stub.academic_term
    stub.assessment_group

/-- The `subjects` table of a stub after the class-stats pass. -/
def popSubjects (db : DB) (stub : Stub) : List SubjectRow :=
  (buildSubjects (stubRows db stub)).map
    (updateSubjectStats db (resolveGroup db stub.student) stub.assessment_group
      stub.academic_term stub.academic_year)

/-- The `assessment_components` table of a stub. -/
def popComponents (db : DB) (stub : Stub) : List ComponentRow :=
  buildComponents (stubRows db stub)

/-- Step 8: `total_marks_obtained`, sum of the subject total scores. -/
def popTotal (db : DB) (stub : Stub) : ℚ :=
  ((popSubjects db stub).map (fun s => s.total_score)).sum

/-- Step 8: `total_max_marks`, sum of the component max scores. -/
def popMax (db : DB) (stub : Stub) : ℚ :=
  ((popComponents db stub).map (fun c => c.max_score)).sum

/-- Step 8: `term_average`, set only when the max marks are positive. -/
def popAvg (db : DB) (stub : Stub) : Option ℚ :=
  if 0 < popMax db stub then
    some (round2 (popTotal db stub / popMax db stub * 100))
  else none

/-- Step 10 of `populate_student_result` (class arm position): skipped when
`doc.student_group` is falsy or the grouped query is empty; a null SUM in
the query result makes the Python comparison raise, modelled as an error
after the earlier fields were already written. -/
def popArm (db : DB) (stub : Stub) : Option Nat × Option String :=
  match resolveGroup db stub.student with
  | none => (none, none)
  | some g =>
    if g = "" then (none, none)
    else
      let totals := armTotals db g stub.assessment_group stub.academic_term
        stub.academic_year
      if totals = [] then (none, none)
      else if totals.all (fun t => t.2.isSome) then
        (some (subjectRank (totals.map (fun t => t.2.getD 0)) (popTotal db stub)),
          none)
      else (none, some "TypeError: comparison of None with a number")

/-- The `populate_student_result` api function.  When the student has no
detailed assessment results, the subjects and components stay empty and a
notice is emitted; otherwise every derived field is filled in. -/
def populate_student_result (db : DB) (stub : Stub) : PopOutcome :=
  let group := resolveGroup db stub.student
  let groupMsgs :=
    if group.isNone then ["No Student Group found for " ++ stub.student] else []
  if stubRows db stub = [] then
    { doc :=
      { student := stub.student, assessment_group := stub.assessment_group,
        academic_year := stub.academic_year, academic_term := stub.academic_term,
        student_group := group, subjects := [], assessment_components := [],
        total_marks_obtained := none, total_max_marks := none,
        term_average := none, overall_grade := none, class_arm_position := none,
        msgs := groupMsgs ++
          ["No Assessment Results found for student " ++ stub.student] },
      error := none }
  else
    { doc :=
      { student := stub.student, assessment_group := stub.assessment_group,
        academic_year := stub.academic_year, academic_term := stub.academic_term,
        student_group := group, subjects := popSubjects db stub,
        assessment_components := popComponents db stub,
        total_marks_obtained := some (popTotal db stub),
        total_max_marks := some (popMax db stub),
        term_average := popAvg db stub,
        overall_grade := overallGrade db.schoolSettings (popAvg db stub),
        class_arm_position := (popArm db stub).1,
        msgs := groupMsgs },
      error := (popArm db stub).2 }

/-- The populated document of a stub. -/
def popDoc (db : DB) (stub : Stub) : ResultDoc :=
  (populate_student_result db stub).doc

/-- The School Term Class Result Generator document: the four filters, each
possibly unset. -/
structure GeneratorDoc where
  assessment_group : Option String
  academic_year : Option String
  academic_term : Option String
  student_group : Option String
deriving DecidableEq

/-- Outcome of `generate_class_results`: the result documents inserted and
committed (in processing order), the notices, and an optional error. -/
structure GenOutcome where
  committed : List ResultDoc
  msgs : List String
  error : Option String
deriving DecidableEq

/-- Students of a student group, in enrollment listing order. -/
def groupStudents (db : DB) (sg : String) : List String :=
  (db.studentGroupStudents.filter (fun r => r.parent = sg)).map (fun r => r.student)

/-- The per-student loop of `generate_class_results`: populate, insert and
commit one record per student; an uncaught populate exception aborts the
loop, preserving the records committed before it. -/
def generateLoop (db : DB) (ag ay tm : String) :
    List String → List ResultDoc × Option String
  | [] => ([], none)
  | st :: rest =>
    let out := populate_student_result db
      { student := st, assessment_group := ag, academic_year := ay,
        academic_term := tm }
    match out.error with
    | some e => ([], some e)
    | none =>
      let r := generateLoop db ag ay tm rest
      (out.doc :: r.1, r.2)

/-- The `generate_class_results` api function: validate the four filters,
enumerate the group's students, and generate one committed result record
per student. -/
def generate_class_results (db : DB) (gen : GeneratorDoc) : GenOutcome :=
  if pyTruthyStr gen.assessment_group && pyTruthyStr gen.academic_year &&
      pyTruthyStr gen.academic_term && pyTruthyStr gen.student_group then
    let sg := gen.student_group.getD ""
    let students := groupStudents db sg
    if students = [] then
      { committed := [], msgs := ["No students found in " ++ sg], error := none }
    else
      let r := generateLoop db (gen.assessment_group.getD "")
        (gen.academic_year.getD "") (gen.academic_term.getD "") students
      { committed := r.1,
        msgs :=
          if r.2 = none then
            ["Generated results for " ++ toString students.length ++
              " students in " ++ sg ++ "."]
          else [],
        error := r.2 }
  else
    { committed := [], msgs := [],
      error := some
        "Assessment Group, Academic Year, Academic Term, and Student Group are required." }

/-- The `validate_assessment_criteria` hook of
`overrides/assessment_criteria.py`: with no settings record (the caught
DoesNotExistError) or an empty whitelist, every criteria name passes;
otherwise a name absent from the whitelist is rejected. -/
def validate_assessment_criteria (settings : Option SchoolSettings)
    (assessment_criteria : String) : Except String Unit :=
  match settings with
  | none => Except.ok ()
  | some st =>
    let valid := st.assessment_criteria_item.map (fun i => i.criteria_name)
    if valid = [] then Except.ok ()
    else if assessment_criteria ∈ valid then Except.ok ()
    else Except.error ("Assessment Criteria \"" ++ assessment_criteria ++
      "\" is not configured in School Settings. Please add it first.")

/-- Specification of the running-maximum fold: the result is the seed or a
list element, dominates the seed, and dominates every element. -/
theorem foldl_max_spec (t : List ℚ) :
    ∀ a : ℚ, (t.foldl max a = a ∨ t.foldl max a ∈ t) ∧
      a ≤ t.foldl max a ∧ ∀ x ∈ t, x ≤ t.foldl max a := by
  induction t with
  | nil => intro a; simp
  | cons b t ih =>
    intro a
    have h := ih (max a b)
    refine ⟨?_, ?_, ?_⟩
    · rcases h.1 with h1 | h1
      · rcases max_choice a b with hc | hc
        · left; simpa [List.foldl_cons, hc] using h1
        · right; simp only [List.foldl_cons]; rw [h1, hc]; exact List.mem_cons_self _ _
      · right; exact List.mem_cons_of_mem _ h1
    · exact le_trans (le_max_left a b) h.2.1
    · intro x hx
      rcases List.mem_cons.mp hx with rfl | hx
      · exact le_trans (le_max_right a x) h.2.1
      · exact h.2.2 x hx

/-- Specification of the running-minimum fold. -/
theorem foldl_min_spec (t : List ℚ) :
    ∀ a : ℚ, (t.foldl min a = a ∨ t.foldl min a ∈ t) ∧
      t.foldl min a ≤ a ∧ ∀ x ∈ t, t.foldl min a ≤ x := by
  induction t with
  | nil => intro a; simp
  | cons b t ih =>
    intro a
    have h := ih (min a b)
    refine ⟨?_, ?_, ?_⟩
    · rcases h.1 with h1 | h1
      · rcases min_choice a b with hc | hc
        · left; simpa [List.foldl_cons, hc] using h1
        · right; simp only [List.foldl_cons]; rw [h1, hc]; exact List.mem_cons_self _ _
      · right; exact List.mem_cons_of_mem _ h1
    · exact le_trans h.2.1 (min_le_left a b)
    · intro x hx
      rcases List.mem_cons.mp hx with rfl | hx
      · exact le_trans h.2.1 (min_le_right a x)
      · exact h.2.2 x hx

/-- The maximum of a nonempty list is an element of it. -/
theorem listMax_mem (l : List ℚ) (h : l ≠ []) : listMax l ∈ l := by
  cases l with
  | nil => exact absurd rfl h
  | cons a t =>
    rcases (foldl_max_spec t a).1 with h1 | h1
    · rw [listMax, h1]; exact List.mem_cons_self _ _
    · exact List.mem_cons_of_mem _ h1

/-- Every element of a list is at most its maximum. -/
theorem le_listMax (l : List ℚ) (x : ℚ) (hx : x ∈ l) : x ≤ listMax l := by
  cases l with
  | nil => cases hx
  | cons a t =>
    rcases List.mem_cons.mp hx with rfl | hx
    · exact (foldl_max_spec t x).2.1
    · exact (foldl_max_spec t a).2.2 x hx

/-- The minimum of a nonempty list is an element of it. -/
theorem listMin_mem (l : List ℚ) (h : l ≠ []) : listMin l ∈ l := by
  cases l with
  | nil => exact absurd rfl h
  | cons a t =>
    rcases (foldl_min_spec t a).1 with h1 | h1
    · rw [listMin, h1]; exact List.mem_cons_self _ _
    · exact List.mem_cons_of_mem _ h1

/-- The minimum of a list is at most every element. -/
theorem listMin_le (l : List ℚ) (x : ℚ) (hx : x ∈ l) : listMin l ≤ x := by
  cases l with
  | nil => cases hx
  | cons a t =>
    rcases List.mem_cons.mp hx with rfl | hx
    · exact (foldl_min_spec t x).2.1
    · exact (foldl_min_spec t a).2.2 x hx

/-- The find function returns the pivot of the first decomposition whose
prefix has no match and whose pivot matches. -/
theorem find_first_match {α : Type} (p : α → Bool) (pre : List α) (b : α)
    (post : List α) (hpre : ∀ x ∈ pre, p x = false) (hb : p b = true) :
    (pre ++ b :: post).find? p = some b := by
  induction pre with
  | nil => simp [List.find?, hb]
  | cons a t ih =>
    have ha : p a = false := hpre a (List.mem_cons_self _ _)
    simp only [List.cons_append, List.find?, ha]
    exact ih (fun x hx => hpre x (List.mem_cons_of_mem _ hx))

/-- The student field of the populated document is the stub's student. -/
theorem popDoc_student (db : DB) (stub : Stub) :
    (popDoc db stub).student = stub.student := by
  unfold popDoc populate_student_result
  split <;> rfl

/-- The student-group field of the populated document is the resolved
group of the stub's student. -/
theorem popDoc_student_group (db : DB) (stub : Stub) :
    (popDoc db stub).student_group = resolveGroup db stub.student := by
  unfold popDoc populate_student_result
  split <;> rfl

/-- With a nonempty detailed-results query the populated document carries
the computed subjects, components, totals, average, grade and position. -/
theorem popDoc_fields (db : DB) (stub : Stub) (h : stubRows db stub ≠ []) :
    (popDoc db stub).subjects = popSubjects db stub ∧
    (popDoc db stub).assessment_components = popComponents db stub ∧
    (popDoc db stub).total_marks_obtained = some (popTotal db stub) ∧
    (popDoc db stub).total_max_marks = some (popMax db stub) ∧
    (popDoc db stub).term_average = popAvg db stub ∧
    (popDoc db stub).overall_grade = overallGrade db.schoolSettings (popAvg db stub) ∧
    (popDoc db stub).class_arm_position = (popArm db stub).1 := by
  unfold popDoc populate_student_result
  rw [if_neg h]
  exact ⟨rfl, rfl, rfl, rfl, rfl, rfl, rfl⟩

/-- With an empty detailed-results query the populated document keeps the
empty child tables and unset aggregates. -/
theorem popDoc_empty (db : DB) (stub : Stub) (h : stubRows db stub = []) :
    (popDoc db stub).subjects = [] ∧
    (popDoc db stub).assessment_components = [] ∧
    (popDoc db stub).term_average = none ∧
    (popDoc db stub).overall_grade = none ∧
    (popDoc db stub).class_arm_position = none ∧
    (populate_student_result db stub).error = none ∧
    ("No Assessment Results found for student " ++ stub.student) ∈
      (popDoc db stub).msgs := by
  unfold popDoc populate_student_result
  rw [if_pos h]
  refine ⟨rfl, rfl, rfl, rfl, rfl, rfl, ?_⟩
  exact List.mem_append_right _ (List.mem_singleton.mpr rfl)

/-- The class-stats pass never changes the subject name of a row. -/
theorem updateSubjectStats_subject (db : DB) (group : Option String)
    (ag tm yr : String) (s : SubjectRow) :
    (updateSubjectStats db group ag tm yr s).subject = s.subject := by
  unfold updateSubjectStats
  split
  · dsimp only
    split <;> rfl
  · rfl

/-- Value of the class-stats pass on a row when the group and the subject
are truthy and the class-scores query is nonempty. -/
theorem updateSubjectStats_eq (db : DB) (g ag tm yr : String) (s0 : SubjectRow)
    (hg : g ≠ "") (hsub : s0.subject ≠ "")
    (hcs : classScores db g s0.subject ag tm yr ≠ []) :
    updateSubjectStats db (some g) ag tm yr s0 =
    { s0 with
      class_highest_score := listMax (classScores db g s0.subject ag tm yr),
      class_lowest_score := listMin (classScores db g s0.subject ag tm yr),
      class_average_score := round2 ((classScores db g s0.subject ag tm yr).sum /
        ((classScores db g s0.subject ag tm yr).length : ℚ)),
      subject_position := toString (subjectRank
        (classScores db g s0.subject ag tm yr) s0.total_score) } := by
  have h1 : (pyTruthyStr (some g) && !(s0.subject == "")) = true := by
    simp [pyTruthyStr, hg, hsub]
  unfold updateSubjectStats
  rw [if_pos h1]
  simp only [Option.getD_some]
  rw [if_neg hcs]

/-- Fields of a subject row of a populated document whose student group is
truthy and whose class-scores query is nonempty: the row carries the class
maximum, minimum, rounded mean, and the strict-count rank of the source. -/
theorem subject_stats_spec (db : DB) (stub : Stub) (g : String) (s : SubjectRow)
    (hs : s ∈ (popDoc db stub).subjects)
    (hG : (popDoc db stub).student_group = some g)
    (hg : g ≠ "")
    (hsub : s.subject ≠ "")
    (hcs : classScores db g s.subject stub.assessment_group stub.academic_term
      stub.academic_year ≠ []) :
    s.subject_position = toString (subjectRank (classScores db g s.subject
        stub.assessment_group stub.academic_term stub.academic_year)
        s.total_score) ∧
    s.class_highest_score = listMax (classScores db g s.subject
        stub.assessment_group stub.academic_term stub.academic_year) ∧
    s.class_lowest_score = listMin (classScores db g s.subject
        stub.assessment_group stub.academic_term stub.academic_year) ∧
    s.class_average_score = round2 ((classScores db g s.subject
        stub.assessment_group stub.academic_term stub.academic_year).sum /
      (((classScores db g s.subject stub.assessment_group stub.academic_term
        stub.academic_year).length : ℚ))) := by
  have hrows : stubRows db stub ≠ [] := by
    intro h
    rw [(popDoc_empty db stub h).1] at hs
    cases hs
  have hGr : resolveGroup db stub.student = some g := by
    rw [← popDoc_student_group db stub]; exact hG
  rw [(popDoc_fields db stub hrows).1] at hs
  unfold popSubjects at hs
  rw [hGr] at hs
  obtain ⟨s0, hs0, heq⟩ := List.mem_map.mp hs
  have hsubj : s.subject = s0.subject := by
    rw [← heq]
    exact updateSubjectStats_subject db (some g) stub.assessment_group
      stub.academic_term stub.academic_year s0
  have hsub0 : s0.subject ≠ "" := by rw [← hsubj]; exact hsub
  have hcs0 : classScores db g s0.subject stub.assessment_group
      stub.academic_term stub.academic_year ≠ [] := by
    rw [← hsubj]; exact hcs
  have hval := updateSubjectStats_eq db g stub.assessment_group
    stub.academic_term stub.academic_year s0 hg hsub0 hcs0
  rw [← heq, hval]
  simp [hsubj]

/-- When every student of the list populates without an exception, the
per-student loop commits one record per student in order, and the records
committed for a prefix of the list are exactly the prefix of the records:
each record is durable before the next student is processed. -/
theorem generateLoop_spec (db : DB) (ag ay tm : String) (l : List String)
    (h : ∀ st ∈ l, (populate_student_result db
      { student := st, assessment_group := ag, academic_year := ay,
        academic_term := tm }).error = none) :
    (generateLoop db ag ay tm l).2 = none ∧
    (generateLoop db ag ay tm l).1.map (fun d => d.student) = l ∧
    ∀ n, (generateLoop db ag ay tm (l.take n)).1 =
      (generateLoop db ag ay tm l).1.take n := by
  induction l with
  | nil =>
    refine ⟨rfl, rfl, fun n => ?_⟩
    cases n <;> rfl
  | cons st rest ih =>
    have hh : (populate_student_result db
        { student := st, assessment_group := ag, academic_year := ay,
          academic_term := tm }).error = none :=
      h st (List.mem_cons_self _ _)
    have ih2 := ih (fun x hx => h x (List.mem_cons_of_mem _ hx))
    refine ⟨?_, ?_, ?_⟩
    · simp only [generateLoop, hh]
      exact ih2.1
    · simp only [generateLoop, hh, List.map_cons]
      rw [ih2.2.1]
      have := popDoc_student db
        { student := st, assessment_group := ag, academic_year := ay,
          academic_term := tm }
      unfold popDoc at this
      rw [this]
    · intro n
      cases n with
      | zero => rfl
      | succ n =>
        simp only [List.take_succ_cons, generateLoop, hh]
        rw [ih2.2.2 n]

/-- Value of the class-arm step when the group is truthy, the grouped query
is nonempty, and every grouped SUM is non-null. -/
theorem popArm_eq (db : DB) (stub : Stub) (g : String)
    (hGr : resolveGroup db stub.student = some g) (hg : g ≠ "")
    (hT : armTotals db g stub.assessment_group stub.academic_term
      stub.academic_year ≠ [])
    (hSome : ∀ t ∈ armTotals db g stub.assessment_group stub.academic_term
      stub.academic_year, t.2.isSome = true) :
    popArm db stub =
      (some (subjectRank ((armTotals db g stub.assessment_group
          stub.academic_term stub.academic_year).map (fun t => t.2.getD 0))
        (popTotal db stub)), none) := by
  unfold popArm
  rw [hGr]
  simp only
  rw [if_neg hg]
  rw [if_neg hT, if_pos (List.all_eq_true.mpr hSome)]

/-- The strict-count rank over a mapped list counts the mapped values. -/
theorem subjectRank_map {α : Type} (l : List α) (f : α → ℚ) (own : ℚ) :
    subjectRank (l.map f) own = 1 + (l.filter (fun t => own < f t)).length := by
  unfold subjectRank
  rw [List.filter_map, List.length_map]
  rfl

/-- Concrete School Settings used by the witness databases: the two-band
scale of the specification examples plus a one-entry criteria whitelist. -/
def exSettings : SchoolSettings :=
  { overall_grading_scale :=
      [{ min_percentage := some 80, max_percentage := some 100, grade_code := "A" },
       { min_percentage := some 0, max_percentage := some 79, grade_code := "B" }],
    assessment_criteria_item := [{ criteria_name := "Exam" }] }

/-- Concrete database: one group G1 with three students, one Math
assessment each with total scores 90, 90 and 80. -/
def exDb : DB :=
  { students := [{ name := "S1" }, { name := "S2" }, { name := "S3" }],
    studentGroupStudents :=
      [{ parent := "G1", student := "S1" }, { parent := "G1", student := "S2" },
       { parent := "G1", student := "S3" }],
    assessmentResults :=
      [{ name := "AR1", student := "S1", course := "Math", total_score := some 90,
         grade := some "A", academic_year := "Y", academic_term := "T",
         assessment_group := "AG", docstatus := 1 },
       { name := "AR2", student := "S2", course := "Math", total_score := some 90,
         grade := some "A", academic_year := "Y", academic_term := "T",
         assessment_group := "AG", docstatus := 1 },
       { name := "AR3", student := "S3", course := "Math", total_score := some 80,
         grade := some "B", academic_year := "Y", academic_term := "T",
         assessment_group := "AG", docstatus := 1 }],
    assessmentResultDetails :=
      [{ parent := "AR1", assessment_criteria := "Exam", score := some 90,
         maximum_score := some 100, idx := 1 },
       { parent := "AR2", assessment_criteria := "Exam", score := some 90,
         maximum_score := some 100, idx := 1 },
       { parent := "AR3", assessment_criteria := "Exam", score := some 80,
         maximum_score := some 100, idx := 1 }],
    schoolSettings := some exSettings }

/-- Stub for student S1 of the concrete database. -/
def exStub1 : Stub :=
  { student := "S1", assessment_group := "AG", academic_year := "Y",
    academic_term := "T" }

/-- Stub for student S3 of the concrete database. -/
def exStub3 : Stub :=
  { student := "S3", assessment_group := "AG", academic_year := "Y",
    academic_term := "T" }

/-- Stub for a student with no data at all in the concrete database. -/
def exStub9 : Stub :=
  { student := "S9", assessment_group := "AG", academic_year := "Y",
    academic_term := "T" }

/-- A flatMap whose function yields the empty list on every element of the
list is empty. -/
theorem flatMap_nil_of_forall {α β : Type} (l : List α) (f : α → List β)
    (h : ∀ x ∈ l, f x = []) : l.flatMap f = [] := by
  induction l with
  | nil => rfl
  | cons a t ih =>
    rw [List.flatMap_cons, h a (List.mem_cons_self _ _), List.nil_append]
    exact ih (fun x hx => h x (List.mem_cons_of_mem _ hx))

/-- C3: for every populated Result Record, the overall total equals the sum
of all Subject total scores, the overall max equals the sum of all
Assessment-Component max scores, and the term average equals
round(total / max * 100, 2) when the max is strictly positive and is left
unset when the max is 0. -/
theorem c3_overall_totals_and_average (db : DB) (stub : Stub)
    (h : stubRows db stub ≠ []) :
    (popDoc db stub).total_marks_obtained =
      some (((popDoc db stub).subjects.map (fun s => s.total_score)).sum) ∧
    (popDoc db stub).total_max_marks =
      some (((popDoc db stub).assessment_components.map
        (fun c => c.max_score)).sum) ∧
    (0 < ((popDoc db stub).assessment_components.map (fun c => c.max_score)).sum →
      (popDoc db stub).term_average = some (round2
        ((((popDoc db stub).subjects.map (fun s => s.total_score)).sum /
          ((popDoc db stub).assessment_components.map
            (fun c => c.max_score)).sum) * 100))) ∧
    (((popDoc db stub).assessment_components.map (fun c => c.max_score)).sum = 0 →
      (popDoc db stub).term_average = none) := by
  obtain ⟨hsub, hcomp, htot, hmax, havg, -, -⟩ := popDoc_fields db stub h
  rw [hsub, hcomp, htot, hmax, havg]
  refine ⟨rfl, rfl, ?_, ?_⟩
  · intro hpos
    have hpos2 : 0 < popMax db stub := hpos
    unfold popAvg
    rw [if_pos hpos2]
    rfl
  · intro hz
    have hz2 : popMax db stub = 0 := hz
    unfold popAvg
    rw [hz2]
    simp

/-- Witness for C3 on the concrete database: student S1 has one Math
subject of 90 out of 100, giving term average 90. -/
theorem c3_overall_totals_and_average_witness :
    stubRows exDb exStub1 ≠ [] ∧
    ((popDoc exDb exStub1).total_marks_obtained =
      some (((popDoc exDb exStub1).subjects.map (fun s => s.total_score)).sum) ∧
    (popDoc exDb exStub1).total_max_marks =
      some (((popDoc exDb exStub1).assessment_components.map
        (fun c => c.max_score)).sum) ∧
    (0 < ((popDoc exDb exStub1).assessment_components.map
        (fun c => c.max_score)).sum →
      (popDoc exDb exStub1).term_average = some (round2
        ((((popDoc exDb exStub1).subjects.map (fun s => s.total_score)).sum /
          ((popDoc exDb exStub1).assessment_components.map
            (fun c => c.max_score)).sum) * 100))) ∧
    (((popDoc exDb exStub1).assessment_components.map
        (fun c => c.max_score)).sum = 0 →
      (popDoc exDb exStub1).term_average = none)) :=
  ⟨by decide, c3_overall_totals_and_average exDb exStub1 (by decide)⟩

/-- C8: a Result Record stub whose student has zero matching assessment
results keeps empty subjects and assessment-components lists, receives an
informational notice, and the populator terminates without raising. -/
theorem c8_no_results_graceful (db : DB) (stub : Stub)
    (h : ∀ ar ∈ db.assessmentResults, ¬(ar.student = stub.student ∧
      ar.academic_year = stub.academic_year ∧
      ar.academic_term = stub.academic_term ∧
      ar.assessment_group = stub.assessment_group ∧
      (ar.docstatus = 0 ∨ ar.docstatus = 1))) :
    (popDoc db stub).subjects = [] ∧
    (popDoc db stub).assessment_components = [] ∧
    ("No Assessment Results found for student " ++ stub.student) ∈
      (popDoc db stub).msgs ∧
    (populate_student_result db stub).error = none := by
  have hrows : stubRows db stub = [] := by
    unfold stubRows detailedResults
    rw [flatMap_nil_of_forall _ _ (fun ar har => if_neg (h ar har))]
    rfl
  obtain ⟨h1, h2, -, -, -, h6, h7⟩ := popDoc_empty db stub hrows
  exact ⟨h1, h2, h7, h6⟩

/-- Witness for C8 on the concrete database: student S9 has no assessment
results at all. -/
theorem c8_no_results_graceful_witness :
    (∀ ar ∈ exDb.assessmentResults, ¬(ar.student = exStub9.student ∧
      ar.academic_year = exStub9.academic_year ∧
      ar.academic_term = exStub9.academic_term ∧
      ar.assessment_group = exStub9.assessment_group ∧
      (ar.docstatus = 0 ∨ ar.docstatus = 1))) ∧
    ((popDoc exDb exStub9).subjects = [] ∧
    (popDoc exDb exStub9).assessment_components = [] ∧
    ("No Assessment Results found for student " ++ exStub9.student) ∈
      (popDoc exDb exStub9).msgs ∧
    (populate_student_result exDb exStub9).error = none) :=
  ⟨by decide, c8_no_results_graceful exDb exStub9 (by decide)⟩

/-- C5: a batch-generation invocation with any of the four required filters
unset (falsy) raises the validation error and creates zero records. -/
theorem c5_missing_filters_error (db : DB) (gen : GeneratorDoc)
    (h : (pyTruthyStr gen.assessment_group && pyTruthyStr gen.academic_year &&
      pyTruthyStr gen.academic_term && pyTruthyStr gen.student_group) = false) :
    generate_class_results db gen =
      { committed := [], msgs := [],
        error := some
          "Assessment Group, Academic Year, Academic Term, and Student Group are required." } := by
  unfold generate_class_results
  simp [h]

/-- Witness for C5: a generator document with the student group unset. -/
theorem c5_missing_filters_error_witness :
    ((pyTruthyStr (some "AG") && pyTruthyStr (some "Y") &&
      pyTruthyStr (some "T") && pyTruthyStr (none : Option String)) = false) ∧
    generate_class_results exDb
      { assessment_group := some "AG", academic_year := some "Y",
        academic_term := some "T", student_group := none } =
      { committed := [], msgs := [],
        error := some
          "Assessment Group, Academic Year, Academic Term, and Student Group are required." } :=
  ⟨by decide, c5_missing_filters_error exDb
    { assessment_group := some "AG", academic_year := some "Y",
      academic_term := some "T", student_group := none } (by decide)⟩

/-- C9: the assessment-criteria validation hook errors exactly when the
settings record exists, its whitelist is non-empty, and the criteria name
is absent from the whitelist; a missing settings record or an empty
whitelist lets every input pass. -/
theorem c9_validation_hook (settings : Option SchoolSettings) (ac : String) :
    (validate_assessment_criteria settings ac = Except.error
        ("Assessment Criteria \"" ++ ac ++
          "\" is not configured in School Settings. Please add it first.") ↔
      ∃ st, settings = some st ∧
        st.assessment_criteria_item.map (fun i => i.criteria_name) ≠ [] ∧
        ac ∉ st.assessment_criteria_item.map (fun i => i.criteria_name)) ∧
    (settings = none → validate_assessment_criteria settings ac =
      Except.ok ()) ∧
    (∀ st, settings = some st →
      st.assessment_criteria_item.map (fun i => i.criteria_name) = [] →
      validate_assessment_criteria settings ac = Except.ok ()) := by
  cases settings with
  | none => simp [validate_assessment_criteria]
  | some st =>
    refine ⟨?_, ?_, ?_⟩
    · by_cases hv : st.assessment_criteria_item.map (fun i => i.criteria_name) = []
      · simp [validate_assessment_criteria, hv]
        intro hne
        exact absurd (List.map_eq_nil_iff.mp hv) hne
      · by_cases hm : ac ∈ st.assessment_criteria_item.map (fun i => i.criteria_name)
        · simp [validate_assessment_criteria, hv, hm]
          intro
          obtain ⟨x, hx, hfx⟩ := List.mem_map.mp hm
          exact ⟨x, hx, hfx⟩
        · simp [validate_assessment_criteria, hv, hm]
          refine ⟨?_, ?_⟩
          · intro hitems
            apply hv
            rw [hitems]
            rfl
          · intro x hx hfx
            exact hm (List.mem_map.mpr ⟨x, hx, hfx⟩)
    · intro hc; cases hc
    · intro st2 hst hv
      have : st2 = st := by injection hst.symm
      subst this
      simp [validate_assessment_criteria, hv]

/-- Witness for C9: the name Quiz is rejected against the concrete
whitelist containing only Exam, and passes when settings are missing. -/
theorem c9_validation_hook_witness :
    validate_assessment_criteria (some exSettings) "Quiz" = Except.error
      ("Assessment Criteria \"" ++ "Quiz" ++
        "\" is not configured in School Settings. Please add it first.") ∧
    validate_assessment_criteria (none : Option SchoolSettings) "Quiz" =
      Except.ok () :=
  ⟨(c9_validation_hook (some exSettings) "Quiz").1.mpr
      ⟨exSettings, rfl, by decide, by decide⟩,
    (c9_validation_hook (none : Option SchoolSettings) "Quiz").2.1 rfl⟩

/-- Concrete subject row produced for student S1 on the concrete database:
rank 1, class high 90, low 80, average 86.67. -/
def exSubj1 : SubjectRow :=
  { subject := "Math", total_score := 90, grade := "A", subject_position := "1",
    class_highest_score := 90, class_lowest_score := 80,
    class_average_score := 8667/100 }

/-- C2: the subject rank of a populated Result Record equals 1 plus the
count of class scores strictly exceeding the student's own score; any
score tied with the maximum receives rank 1, and scores [90, 90, 80]
yield ranks [1, 1, 3]. -/
theorem c2_subject_rank (db : DB) (stub : Stub) (g : String) (s : SubjectRow)
    (hs : s ∈ (popDoc db stub).subjects)
    (hG : (popDoc db stub).student_group = some g)
    (hg : g ≠ "")
    (hsub : s.subject ≠ "")
    (hcs : classScores db g s.subject stub.assessment_group stub.academic_term
      stub.academic_year ≠ []) :
    s.subject_position = toString (subjectRank (classScores db g s.subject
      stub.assessment_group stub.academic_term stub.academic_year)
      s.total_score) ∧
    (∀ (scores : List ℚ) (own : ℚ), (∀ x ∈ scores, x ≤ own) →
      subjectRank scores own = 1) ∧
    ([(90 : ℚ), 90, 80].map (fun v => subjectRank [90, 90, 80] v) = [1, 1, 3]) := by
  refine ⟨(subject_stats_spec db stub g s hs hG hg hsub hcs).1, ?_, by decide⟩
  intro scores own hle
  have hfil : scores.filter (fun v => decide (own < v)) = [] :=
    List.filter_eq_nil_iff.mpr (fun x hx => by
      simpa using not_lt.mpr (hle x hx))
  unfold subjectRank
  rw [hfil]
  rfl

attribute [local semireducible] Rat.mul Rat.add Rat.inv Rat.sub in
/-- Witness for C2: student S1 on the concrete database, whose Math class
scores are [90, 90, 80] and whose rank is 1. -/
theorem c2_subject_rank_witness :
    (exSubj1 ∈ (popDoc exDb exStub1).subjects ∧
     (popDoc exDb exStub1).student_group = some "G1" ∧
     "G1" ≠ "" ∧ exSubj1.subject ≠ "" ∧
     classScores exDb "G1" exSubj1.subject exStub1.assessment_group
       exStub1.academic_term exStub1.academic_year ≠ []) ∧
    (exSubj1.subject_position = toString (subjectRank (classScores exDb "G1"
        exSubj1.subject exStub1.assessment_group exStub1.academic_term
        exStub1.academic_year) exSubj1.total_score) ∧
     (∀ (scores : List ℚ) (own : ℚ), (∀ x ∈ scores, x ≤ own) →
       subjectRank scores own = 1) ∧
     ([(90 : ℚ), 90, 80].map (fun v => subjectRank [90, 90, 80] v) = [1, 1, 3])) :=
  ⟨⟨by decide, by decide, by decide, by decide, by decide⟩,
    c2_subject_rank exDb exStub1 "G1" exSubj1 (by decide) (by decide)
      (by decide) (by decide) (by decide)⟩

attribute [local semireducible] Rat.mul Rat.add Rat.inv Rat.sub in
/-- C7: for every subject of a populated Result Record with a nonempty
class-scores query, the class average is the arithmetic mean of the
scores rounded to 2 decimals (with [70, 80, 90] giving 80), the class
highest is their maximum and the class lowest is their minimum. -/
theorem c7_class_statistics (db : DB) (stub : Stub) (g : String) (s : SubjectRow)
    (hs : s ∈ (popDoc db stub).subjects)
    (hG : (popDoc db stub).student_group = some g)
    (hg : g ≠ "")
    (hsub : s.subject ≠ "")
    (hcs : classScores db g s.subject stub.assessment_group stub.academic_term
      stub.academic_year ≠ []) :
    s.class_average_score = round2 ((classScores db g s.subject
        stub.assessment_group stub.academic_term stub.academic_year).sum /
      ((classScores db g s.subject stub.assessment_group stub.academic_term
        stub.academic_year).length : ℚ)) ∧
    s.class_highest_score ∈ classScores db g s.subject stub.assessment_group
      stub.academic_term stub.academic_year ∧
    (∀ x ∈ classScores db g s.subject stub.assessment_group stub.academic_term
      stub.academic_year, x ≤ s.class_highest_score) ∧
    s.class_lowest_score ∈ classScores db g s.subject stub.assessment_group
      stub.academic_term stub.academic_year ∧
    (∀ x ∈ classScores db g s.subject stub.assessment_group stub.academic_term
      stub.academic_year, s.class_lowest_score ≤ x) ∧
    round2 (([(70 : ℚ), 80, 90].sum) / (([(70 : ℚ), 80, 90].length : ℚ))) = 80 := by
  obtain ⟨-, hhi, hlo, hav⟩ := subject_stats_spec db stub g s hs hG hg hsub hcs
  refine ⟨hav, ?_, ?_, ?_, ?_, by decide⟩
  · rw [hhi]
    exact listMax_mem _ hcs
  · intro x hx
    rw [hhi]
    exact le_listMax _ x hx
  · rw [hlo]
    exact listMin_mem _ hcs
  · intro x hx
    rw [hlo]
    exact listMin_le _ x hx

attribute [local semireducible] Rat.mul Rat.add Rat.inv Rat.sub in
/-- Witness for C7: student S1 on the concrete database with class scores
[90, 90, 80] for Math. -/
theorem c7_class_statistics_witness :
    (exSubj1 ∈ (popDoc exDb exStub1).subjects ∧
     (popDoc exDb exStub1).student_group = some "G1" ∧
     "G1" ≠ "" ∧ exSubj1.subject ≠ "" ∧
     classScores exDb "G1" exSubj1.subject exStub1.assessment_group
       exStub1.academic_term exStub1.academic_year ≠ []) ∧
    (exSubj1.class_average_score = round2 ((classScores exDb "G1" exSubj1.subject
        exStub1.assessment_group exStub1.academic_term
        exStub1.academic_year).sum /
      ((classScores exDb "G1" exSubj1.subject exStub1.assessment_group
        exStub1.academic_term exStub1.academic_year).length : ℚ)) ∧
     exSubj1.class_highest_score ∈ classScores exDb "G1" exSubj1.subject
       exStub1.assessment_group exStub1.academic_term exStub1.academic_year ∧
     (∀ x ∈ classScores exDb "G1" exSubj1.subject exStub1.assessment_group
       exStub1.academic_term exStub1.academic_year,
       x ≤ exSubj1.class_highest_score) ∧
     exSubj1.class_lowest_score ∈ classScores exDb "G1" exSubj1.subject
       exStub1.assessment_group exStub1.academic_term exStub1.academic_year ∧
     (∀ x ∈ classScores exDb "G1" exSubj1.subject exStub1.assessment_group
       exStub1.academic_term exStub1.academic_year,
       exSubj1.class_lowest_score ≤ x) ∧
     round2 (([(70 : ℚ), 80, 90].sum) / (([(70 : ℚ), 80, 90].length : ℚ))) = 80) :=
  ⟨⟨by decide, by decide, by decide, by decide, by decide⟩,
    c7_class_statistics exDb exStub1 "G1" exSubj1 (by decide) (by decide)
      (by decide) (by decide) (by decide)⟩

/-- Database exhibiting a computed-but-zero term average: one assessment
result with total score 0 out of a max of 100, and no grading bands
configured. -/
def cxDb : DB :=
  { students := [{ name := "S1" }],
    studentGroupStudents := [],
    assessmentResults :=
      [{ name := "AR1", student := "S1", course := "Math", total_score := some 0,
         grade := some "F", academic_year := "Y", academic_term := "T",
         assessment_group := "AG", docstatus := 1 }],
    assessmentResultDetails :=
      [{ parent := "AR1", assessment_criteria := "Exam", score := some 0,
         maximum_score := some 100, idx := 1 }],
    schoolSettings :=
      some { overall_grading_scale := [], assessment_criteria_item := [] } }

attribute [local semireducible] Rat.mul Rat.add Rat.inv Rat.sub in
/-- Counterexample to C1 as stated: on `cxDb` the summed component max
marks are positive (100) and a term average is computed (0), so the claim
requires the fallback scan to set the overall grade to F; but the source
guards the grade step with the truthiness of `doc.term_average`, so a zero
average leaves the overall grade unset. -/
theorem c1_counterexample_zero_average :
    (popDoc cxDb exStub1).total_max_marks = some 100 ∧
    (popDoc cxDb exStub1).term_average = some 0 ∧
    cxDb.schoolSettings =
      some { overall_grading_scale := [], assessment_criteria_item := [] } ∧
    fallbackGrade 0 = "F" ∧
    (popDoc cxDb exStub1).overall_grade = none ∧
    (popDoc cxDb exStub1).overall_grade ≠ some (fallbackGrade 0) := by
  refine ⟨by decide, by decide, by decide, by decide, by decide, by decide⟩

/-- C1 (amended): for every Result Record stub for which the populator
computes a NON-ZERO term average and whose School Settings load succeeds,
the overall grade is the first configured band whose min% <= average <=
max% (scanned in order), or, with no bands configured, the fixed fallback
thresholds (>=80 A, >=70 B, >=60 C, >=50 D, else F); a zero term average
leaves the grade unset, as the counterexample shows. -/
theorem c1_overall_grade_amended (db : DB) (stub : Stub) (st : SchoolSettings)
    (avg : ℚ)
    (hS : db.schoolSettings = some st)
    (hA : (popDoc db stub).term_average = some avg)
    (h0 : avg ≠ 0) :
    (st.overall_grading_scale ≠ [] →
      ((popDoc db stub).overall_grade =
        some (gradeFromBands st.overall_grading_scale avg) ∧
       ∀ pre b post, st.overall_grading_scale = pre ++ b :: post →
         (∀ x ∈ pre, ¬(pyOrQ x.min_percentage 0 ≤ avg ∧
           avg ≤ pyOrQ x.max_percentage 100)) →
         (pyOrQ b.min_percentage 0 ≤ avg ∧ avg ≤ pyOrQ b.max_percentage 100) →
         gradeFromBands st.overall_grading_scale avg = b.grade_code)) ∧
    (st.overall_grading_scale = [] →
      ((popDoc db stub).overall_grade = some (fallbackGrade avg) ∧
       (80 ≤ avg → fallbackGrade avg = "A") ∧
       (70 ≤ avg → avg < 80 → fallbackGrade avg = "B") ∧
       (60 ≤ avg → avg < 70 → fallbackGrade avg = "C") ∧
       (50 ≤ avg → avg < 60 → fallbackGrade avg = "D") ∧
       (avg < 50 → fallbackGrade avg = "F"))) := by
  have hrows : stubRows db stub ≠ [] := by
    intro h
    rw [(popDoc_empty db stub h).2.2.1] at hA
    cases hA
  obtain ⟨-, -, -, -, havg, hgr, -⟩ := popDoc_fields db stub hrows
  rw [hA] at havg
  rw [havg.symm, hS] at hgr
  simp only [overallGrade, h0, if_false, if_neg h0] at hgr
  constructor
  · intro hne
    rw [if_neg hne] at hgr
    refine ⟨hgr, ?_⟩
    intro pre b post hdec hpre hb
    unfold gradeFromBands
    rw [hdec, find_first_match (fun x => bandMatches x avg) pre b post
      (fun x hx => by simpa [bandMatches] using hpre x hx)
      (by simpa [bandMatches] using hb)]
  · intro hnil
    rw [if_pos hnil] at hgr
    refine ⟨hgr, ?_, ?_, ?_, ?_, ?_⟩
    · intro h80
      unfold fallbackGrade
      rw [if_pos h80]
    · intro h70 h80
      unfold fallbackGrade
      rw [if_neg (not_le.mpr h80), if_pos h70]
    · intro h60 h70
      unfold fallbackGrade
      rw [if_neg (not_le.mpr (lt_of_lt_of_le h70 (by norm_num))),
        if_neg (not_le.mpr h70), if_pos h60]
    · intro h50 h60
      unfold fallbackGrade
      rw [if_neg (not_le.mpr (lt_of_lt_of_le h60 (by norm_num))),
        if_neg (not_le.mpr (lt_of_lt_of_le h60 (by norm_num))),
        if_neg (not_le.mpr h60), if_pos h50]
    · intro h50
      unfold fallbackGrade
      rw [if_neg (not_le.mpr (lt_of_lt_of_le h50 (by norm_num))),
        if_neg (not_le.mpr (lt_of_lt_of_le h50 (by norm_num))),
        if_neg (not_le.mpr (lt_of_lt_of_le h50 (by norm_num))),
        if_neg (not_le.mpr h50)]

attribute [local semireducible] Rat.mul Rat.add Rat.inv Rat.sub in
/-- Witness for the amended C1: student S1 of the concrete database has
term average 90 and the first configured band (80..100, A) matches. -/
theorem c1_overall_grade_amended_witness :
    (exDb.schoolSettings = some exSettings ∧
     (popDoc exDb exStub1).term_average = some 90 ∧ (90 : ℚ) ≠ 0) ∧
    (exSettings.overall_grading_scale ≠ [] →
      ((popDoc exDb exStub1).overall_grade =
        some (gradeFromBands exSettings.overall_grading_scale 90) ∧
       ∀ pre b post, exSettings.overall_grading_scale = pre ++ b :: post →
         (∀ x ∈ pre, ¬(pyOrQ x.min_percentage 0 ≤ 90 ∧
           (90 : ℚ) ≤ pyOrQ x.max_percentage 100)) →
         (pyOrQ b.min_percentage 0 ≤ 90 ∧ (90 : ℚ) ≤ pyOrQ b.max_percentage 100) →
         gradeFromBands exSettings.overall_grading_scale 90 = b.grade_code)) :=
  ⟨⟨by decide, by decide, by decide⟩,
    (c1_overall_grade_amended exDb exStub1 exSettings 90 (by decide) (by decide)
      (by decide)).1⟩

/-- C10: a populated Result Record with a non-zero term average and a
non-empty configured grading scale in which no band contains the average
receives the sentinel grade N/A (the lookup is total and raises nothing). -/
theorem c10_unmatched_average_sentinel (db : DB) (stub : Stub)
    (st : SchoolSettings) (avg : ℚ)
    (hS : db.schoolSettings = some st)
    (hA : (popDoc db stub).term_average = some avg)
    (h0 : avg ≠ 0)
    (hne : st.overall_grading_scale ≠ [])
    (hnb : ∀ b ∈ st.overall_grading_scale,
      ¬(pyOrQ b.min_percentage 0 ≤ avg ∧ avg ≤ pyOrQ b.max_percentage 100)) :
    (popDoc db stub).overall_grade = some "N/A" := by
  have hrows : stubRows db stub ≠ [] := by
    intro h
    rw [(popDoc_empty db stub h).2.2.1] at hA
    cases hA
  obtain ⟨-, -, -, -, havg, hgr, -⟩ := popDoc_fields db stub hrows
  rw [hA] at havg
  rw [havg.symm, hS] at hgr
  simp only [overallGrade, h0, if_false, if_neg h0] at hgr
  rw [if_neg hne] at hgr
  rw [hgr]
  unfold gradeFromBands
  rw [List.find?_eq_none.mpr (fun b hb => by
    simpa [bandMatches] using hnb b hb)]

/-- Database for the C10 witness: same data as the concrete database but a
grading scale whose single band (0..50) misses the average of 90. -/
def exDb10 : DB :=
  { exDb with
    schoolSettings := some
      { overall_grading_scale :=
          [{ min_percentage := some 0, max_percentage := some 50,
             grade_code := "P" }],
        assessment_criteria_item := [] } }

attribute [local semireducible] Rat.mul Rat.add Rat.inv Rat.sub in
/-- Witness for C10: on `exDb10` student S1 has average 90, outside the
single configured band, and receives the sentinel grade. -/
theorem c10_unmatched_average_sentinel_witness :
    (exDb10.schoolSettings = some
      { overall_grading_scale :=
          [{ min_percentage := some 0, max_percentage := some 50,
             grade_code := "P" }],
        assessment_criteria_item := [] } ∧
     (popDoc exDb10 exStub1).term_average = some 90 ∧ (90 : ℚ) ≠ 0) ∧
    (popDoc exDb10 exStub1).overall_grade = some "N/A" :=
  ⟨⟨by decide, by decide, by decide⟩,
    c10_unmatched_average_sentinel exDb10 exStub1
      { overall_grading_scale :=
          [{ min_percentage := some 0, max_percentage := some 50,
             grade_code := "P" }],
        assessment_criteria_item := [] } 90 (by decide) (by decide) (by decide)
      (by decide) (by decide)⟩

/-- C4: for a populated Result Record whose student has a truthy resolved
group, a nonempty grouped totals query with all sums non-null yields the
group-local rank 1 plus the count of group members whose summed totals
strictly exceed the student's total (so equal totals share a rank and the
next distinct total gets count + 1); with no resolved group the step is
skipped and the position stays unset. -/
theorem c4_group_rank (db : DB) (stub : Stub) (g : String) (T : ℚ) :
    ((popDoc db stub).student_group = some g → g ≠ "" →
     stubRows db stub ≠ [] →
     (popDoc db stub).total_marks_obtained = some T →
     armTotals db g stub.assessment_group stub.academic_term
       stub.academic_year ≠ [] →
     (∀ t ∈ armTotals db g stub.assessment_group stub.academic_term
       stub.academic_year, t.2.isSome = true) →
     (popDoc db stub).class_arm_position =
       some (1 + ((armTotals db g stub.assessment_group stub.academic_term
         stub.academic_year).filter (fun t => T < t.2.getD 0)).length)) ∧
    ((popDoc db stub).student_group = none →
     (popDoc db stub).class_arm_position = none) := by
  constructor
  · intro hG hg hrows htot hT hSome
    have hGr : resolveGroup db stub.student = some g := by
      rw [← popDoc_student_group db stub]; exact hG
    have harm := popArm_eq db stub g hGr hg hT hSome
    rw [(popDoc_fields db stub hrows).2.2.2.2.2.2, harm]
    have hTT : popTotal db stub = T := by
      have := (popDoc_fields db stub hrows).2.2.1
      rw [htot] at this
      exact (Option.some.inj this).symm
    rw [hTT]
    exact congrArg some (subjectRank_map (armTotals db g stub.assessment_group
      stub.academic_term stub.academic_year) (fun t => t.2.getD 0) T)
  · intro hG
    have hGr : resolveGroup db stub.student = none := by
      rw [← popDoc_student_group db stub]; exact hG
    by_cases hrows : stubRows db stub = []
    · exact (popDoc_empty db stub hrows).2.2.2.2.1
    · rw [(popDoc_fields db stub hrows).2.2.2.2.2.2]
      unfold popArm
      rw [hGr]

attribute [local semireducible] Rat.mul Rat.add Rat.inv Rat.sub in
/-- Witness for C4: student S1 of the concrete database, total 90, with
grouped sums 90, 90, 80 over group G1, receives rank 1. -/
theorem c4_group_rank_witness :
    ((popDoc exDb exStub1).student_group = some "G1" ∧ "G1" ≠ "" ∧
     stubRows exDb exStub1 ≠ [] ∧
     (popDoc exDb exStub1).total_marks_obtained = some 90 ∧
     armTotals exDb "G1" exStub1.assessment_group exStub1.academic_term
       exStub1.academic_year ≠ [] ∧
     (∀ t ∈ armTotals exDb "G1" exStub1.assessment_group exStub1.academic_term
       exStub1.academic_year, t.2.isSome = true)) ∧
    (popDoc exDb exStub1).class_arm_position =
      some (1 + ((armTotals exDb "G1" exStub1.assessment_group
        exStub1.academic_term exStub1.academic_year).filter
        (fun t : String × Option ℚ => (90 : ℚ) < t.2.getD 0)).length) :=
  ⟨⟨by decide, by decide, by decide, by decide, by decide, by decide⟩,
    (c4_group_rank exDb exStub1 "G1" 90).1 (by decide) (by decide) (by decide)
      (by decide) (by decide) (by decide)⟩

/-- C6: a batch-generation invocation with all four filters truthy over a
duplicate-free student group, in which every student's populate call
raises nothing, commits exactly one record per enrolled student, linked to
the distinct students in enrollment order, and the records committed for
any prefix of the students are exactly the prefix of the committed
records: each record is durable before the next student is processed. -/
theorem c6_batch_generation (db : DB) (gen : GeneratorDoc)
    (hT : (pyTruthyStr gen.assessment_group && pyTruthyStr gen.academic_year &&
      pyTruthyStr gen.academic_term && pyTruthyStr gen.student_group) = true)
    (hN : (groupStudents db (gen.student_group.getD "")).Nodup)
    (hOk : ∀ st ∈ groupStudents db (gen.student_group.getD ""),
      (populate_student_result db
        { student := st, assessment_group := gen.assessment_group.getD "",
          academic_year := gen.academic_year.getD "",
          academic_term := gen.academic_term.getD "" }).error = none) :
    (generate_class_results db gen).error = none ∧
    (generate_class_results db gen).committed.length =
      (groupStudents db (gen.student_group.getD "")).length ∧
    (generate_class_results db gen).committed.map (fun d => d.student) =
      groupStudents db (gen.student_group.getD "") ∧
    ((generate_class_results db gen).committed.map (fun d => d.student)).Nodup ∧
    (∀ n, (generateLoop db (gen.assessment_group.getD "")
        (gen.academic_year.getD "") (gen.academic_term.getD "")
        ((groupStudents db (gen.student_group.getD "")).take n)).1 =
      (generate_class_results db gen).committed.take n) := by
  have hloop := generateLoop_spec db (gen.assessment_group.getD "")
    (gen.academic_year.getD "") (gen.academic_term.getD "")
    (groupStudents db (gen.student_group.getD "")) hOk
  unfold generate_class_results
  rw [hT]
  simp only [if_true]
  by_cases hst : groupStudents db (gen.student_group.getD "") = []
  · rw [if_pos hst]
    refine ⟨rfl, ?_, ?_, ?_, ?_⟩
    · rw [hst]; rfl
    · rw [hst]; rfl
    · exact List.nodup_nil
    · intro n
      rw [hst]
      cases n <;> rfl
  · rw [if_neg hst]
    dsimp only
    refine ⟨hloop.1, ?_, hloop.2.1, ?_, hloop.2.2⟩
    · have hlen := congrArg List.length hloop.2.1
      rw [List.length_map] at hlen
      exact hlen
    · rw [hloop.2.1]; exact hN

/-- Generator document for the C6 witness: all four filters set. -/
def exGen : GeneratorDoc :=
  { assessment_group := some "AG", academic_year := some "Y",
    academic_term := some "T", student_group := some "G1" }

attribute [local semireducible] Rat.mul Rat.add Rat.inv Rat.sub in
/-- Witness for C6: the concrete database group G1 has the three distinct
students S1, S2, S3, and batch generation commits exactly three records
for them in order. -/
theorem c6_batch_generation_witness :
    ((pyTruthyStr exGen.assessment_group && pyTruthyStr exGen.academic_year &&
      pyTruthyStr exGen.academic_term && pyTruthyStr exGen.student_group) = true ∧
     (groupStudents exDb (exGen.student_group.getD "")).Nodup ∧
     (∀ st ∈ groupStudents exDb (exGen.student_group.getD ""),
       (populate_student_result exDb
         { student := st, assessment_group := exGen.assessment_group.getD "",
           academic_year := exGen.academic_year.getD "",
           academic_term := exGen.academic_term.getD "" }).error = none)) ∧
    ((generate_class_results exDb exGen).error = none ∧
     (generate_class_results exDb exGen).committed.length =
       (groupStudents exDb (exGen.student_group.getD "")).length ∧
     (generate_class_results exDb exGen).committed.map (fun d => d.student) =
       groupStudents exDb (exGen.student_group.getD "") ∧
     ((generate_class_results exDb exGen).committed.map
       (fun d => d.student)).Nodup ∧
     (∀ n, (generateLoop exDb (exGen.assessment_group.getD "")
         (exGen.academic_year.getD "") (exGen.academic_term.getD "")
         ((groupStudents exDb (exGen.student_group.getD "")).take n)).1 =
       (generate_class_results exDb exGen).committed.take n)) :=
  ⟨⟨by decide, by decide, by decide⟩,
    c6_batch_generation exDb exGen (by decide) (by decide) (by decide)⟩

end EducationExtension
